import Mathlib

/-!
Verification of the marketing-analytics core services against their
natural-language specification.

Shallow embedding, by source file:
  * `src/backend/services/funnel_impact.py` — impact assessment
    (`calculate_impact`, `assess_funnel_impact`, `get_change_impact_status`),
    lagged Pearson correlation (`calculate_signal_correlation`), best-lag
    selection and weight suggestions (`analyze_signal_predictiveness`,
    `_calculate_weight_suggestions`).
  * `src/backend/services/multi_signal.py` — normalization and composite
    scoring (`normalize_score`, `calculate_weighted_score`,
    `calculate_confidence_from_volume`, the final-confidence merge of
    `get_multi_signal_campaign_view`), cross-channel best-lag loop of
    `get_cross_channel_correlation`.
  * `src/backend/services/recommendations.py` — outcome recording
    (`record_outcome`, `_calculate_outcome`).

Modelling conventions:
  * Python floats are modelled as exact rationals `ℚ`.  Display-level
    rounding (Python `round(x, k)`) is omitted: every claim proved here is
    insensitive to it (branch conditions in the source are evaluated on the
    unrounded values).
  * A Pearson result value `r = numerator / sqrt(denomSq)` is represented by
    the pair `(numerator, denomSq)`; the source compares `abs(r)` against
    thresholds `0.7 / 0.4 / 0.2` and `stdev` against `0.15 / 0.30`, which is
    rendered here by the equivalent comparisons of squares (both sides are
    nonnegative and the square root is monotone), keeping every definition
    computable.
  * Calendar dates are modelled as integer day indices; Python `datetime`
    arithmetic on whole days maps to integer arithmetic.
  * File/network I/O (loading JSON snapshots, saving caches) is outside the
    shallow embedding; the functions modelled here are the pure computations
    those wrappers call.
-/

/-! ## Funnel impact: `calculate_impact` / `assess_funnel_impact`
    (src/backend/services/funnel_impact.py, lines 135-260) -/

/-- Aggregated funnel metrics for a period, as produced by
`get_funnel_metrics_for_period`; only the fields read by
`calculate_impact` are kept. -/
structure FunnelMetrics where
  revenue : ℚ
  orders : ℚ
  new_customers : ℚ
  amazon_sales : ℚ
  branded_clicks : ℚ
  meta_first_click : ℚ
  mer : ℚ
  ncac : ℚ
deriving DecidableEq

/-- One entry of the dict returned by `calculate_impact`: baseline value,
after value, absolute and percent change, and a direction tag. -/
structure MetricChange where
  baseline : ℚ
  after : ℚ
  absolute : ℚ
  pct : ℚ
  direction : String
deriving DecidableEq

/-- `calc_change` inside `calculate_impact`: percent change guarded against a
nonpositive baseline, direction `up` above +2 percent, `down` below -2
percent, otherwise `flat`.  The source rounds `absolute` and `pct` for
display after computing `direction` from the unrounded value; the rounding
is omitted. -/
def calc_change (after_val baseline_val : ℚ) : MetricChange :=
  let absolute := after_val - baseline_val
  let pct : ℚ :=
    if baseline_val > 0 then (after_val - baseline_val) / baseline_val * 100
    else if after_val > 0 then 100 else 0
  let direction := if pct > 2 then "up" else if pct < -2 then "down" else "flat"
  ⟨baseline_val, after_val, absolute, pct, direction⟩

/-- The dict returned by `calculate_impact`: a `MetricChange` per metric. -/
structure Impact where
  revenue : MetricChange
  orders : MetricChange
  new_customers : MetricChange
  amazon_sales : MetricChange
  branded_clicks : MetricChange
  meta_first_click : MetricChange
  mer : MetricChange
  ncac : MetricChange
deriving DecidableEq

/-- `calculate_impact(baseline, after)` on non-empty inputs (the source
returns an error dict when either input dict is empty; the structure type
makes the inputs always present). -/
def calculate_impact (baseline after : FunnelMetrics) : Impact :=
  ⟨calc_change after.revenue baseline.revenue,
   calc_change after.orders baseline.orders,
   calc_change after.new_customers baseline.new_customers,
   calc_change after.amazon_sales baseline.amazon_sales,
   calc_change after.branded_clicks baseline.branded_clicks,
   calc_change after.meta_first_click baseline.meta_first_click,
   calc_change after.mer baseline.mer,
   calc_change after.ncac baseline.ncac⟩

/-- Per-metric contribution inside `assess_funnel_impact`: `+weight` when
the direction is `up`, `-weight` when `down`, nothing appended (0) when
flat. -/
def signal_score (c : MetricChange) (weight : ℚ) : ℚ :=
  if c.direction = "up" then weight
  else if c.direction = "down" then -weight
  else 0

/-- Result of `assess_funnel_impact`; the free-text `reason` and the
`signals` string list are omitted. -/
structure Assessment where
  verdict : String
  score : ℚ
deriving DecidableEq

/-- `assess_funnel_impact(impact)`: signed weighted sum over
revenue 2.5, new_customers 2.5, amazon_sales 2, branded_clicks 1.5,
mer 1, then a verdict from fixed thresholds. -/
def assess_funnel_impact (impact : Impact) : Assessment :=
  let total_score :=
    signal_score impact.revenue (5/2) +
    signal_score impact.new_customers (5/2) +
    signal_score impact.amazon_sales 2 +
    signal_score impact.branded_clicks (3/2) +
    signal_score impact.mer 1
  let verdict :=
    if total_score ≥ 4 then "strong_positive"
    else if total_score ≥ 2 then "positive"
    else if total_score ≥ 0 then "neutral"
    else if total_score ≥ -2 then "slightly_negative"
    else "negative"
  ⟨verdict, total_score⟩

/-! ## Multi-window change tracking: `get_change_impact_status`
    (src/backend/services/funnel_impact.py, lines 263-331) -/

/-- The per-window entry of the `windows` dict built by
`get_change_impact_status`: either `complete` with the baseline and after
periods (as integer day endpoints), or `pending` with the remaining-day
count and availability date.  The per-window metric fetches and the nested
assessment are the pure functions above applied to fetched data and carry
no window logic of their own, so they are not repeated here. -/
inductive WindowInfo where
  | complete (days_since_change baseline_start baseline_end after_start after_end : ℤ)
  | pending (days_since_change days_remaining available_on : ℤ)
deriving DecidableEq

/-- `TRACKING_WINDOWS = [3, 7, 14, 30]`. -/
def TRACKING_WINDOWS : List ℤ := [3, 7, 14, 30]

/-- The body of the per-window loop of `get_change_impact_status`, with
dates as integer day indices: `days_since_change = now - change_date`;
complete when `days_since_change >= window_days`, baseline is always the 7
days `[change_date-7, change_date-1]`, after period is
`[change_date, change_date+window_days-1]`; otherwise pending with
`days_remaining = window_days - days_since_change` and
`available_on = change_date + window_days`. -/
def window_info (change_date now window_days : ℤ) : WindowInfo :=
  let days_since_change := now - change_date
  if days_since_change ≥ window_days then
    .complete days_since_change (change_date - 7) (change_date - 1)
      change_date (change_date + window_days - 1)
  else
    .pending days_since_change (window_days - days_since_change)
      (change_date + window_days)

/-- The `windows` dict of `get_change_impact_status`: one entry per tracking
window (the source keys them by the strings `"3d"` ... `"30d"`; here by the
window length itself). -/
def get_change_impact_status_windows (change_date now : ℤ) : List (ℤ × WindowInfo) :=
  TRACKING_WINDOWS.map (fun w => (w, window_info change_date now w))

/-! ## Lagged Pearson correlation: `calculate_signal_correlation`
    (src/backend/services/funnel_impact.py, lines 623-685) -/

/-- Result of `calculate_signal_correlation`.  The source returns dicts:
  * `insufficient msg` for `{"error": msg, "correlation": 0,
    "strength": "insufficient_data"}`;
  * `noVariance lagDays` for `{"correlation": 0, "strength": "no_variance",
    "lag_days": lagDays}` (the degenerate case returns r = 0, it does not
    raise);
  * `ok num denomSq strength direction lagDays dataPoints` for the normal
    dict, whose correlation value is `num / sqrt denomSq`. -/
inductive CorrResult where
  | insufficient (msg : String)
  | noVariance (lagDays : ℤ)
  | ok (num denomSq : ℚ) (strength direction : String) (lagDays : ℤ) (dataPoints : ℕ)
deriving DecidableEq

/-- The conditional shift step: only when `0 < lag_days < len(lagging)` does
the source drop the first `lag_days` entries of the lagging series and cut
the leading series to the new length; otherwise both series pass through
unshifted. -/
def shift_align (leading_signal lagging_signal : List ℚ) (lag_days : ℤ) :
    List ℚ × List ℚ :=
  if 0 < lag_days ∧ lag_days < (lagging_signal.length : ℤ) then
    let lagging2 := lagging_signal.drop lag_days.toNat
    (leading_signal.take lagging2.length, lagging2)
  else
    (leading_signal, lagging_signal)

/-- After the shift, both series are truncated to the common length
`min_len`. -/
def trunc_aligned (leading_signal lagging_signal : List ℚ) (lag_days : ℤ) :
    List ℚ × List ℚ :=
  let p := shift_align leading_signal lagging_signal lag_days
  let min_len := min p.1.length p.2.length
  (p.1.take min_len, p.2.take min_len)

/-- Pearson numerator `n * sum_xy - sum_x * sum_y`. -/
def pearson_num (x y : List ℚ) : ℚ :=
  let n : ℚ := x.length
  n * (List.zipWith (· * ·) x y).sum - x.sum * y.sum

/-- Square of the Pearson denominator:
`(n * sum_x2 - sum_x ** 2) * (n * sum_y2 - sum_y ** 2)`.  The source takes
`** 0.5` of this and tests the root for zero; the root is zero exactly when
this product is zero. -/
def pearson_denomSq (x y : List ℚ) : ℚ :=
  let n : ℚ := x.length
  (n * (x.map (fun a => a * a)).sum - x.sum ^ 2) *
    (n * (y.map (fun a => a * a)).sum - y.sum ^ 2)

/-- Strength classification of `|r|` with `r = num / sqrt denomSq`:
`|r| >= 0.7` strong, `>= 0.4` moderate, `>= 0.2` weak, else negligible,
phrased on squares (`0.49`, `0.16`, `0.04`). -/
def corr_strength (num denomSq : ℚ) : String :=
  if num ^ 2 ≥ (49/100) * denomSq then "strong"
  else if num ^ 2 ≥ (4/25) * denomSq then "moderate"
  else if num ^ 2 ≥ (1/25) * denomSq then "weak"
  else "negligible"

/-- `calculate_signal_correlation(leading_signal, lagging_signal, lag_days)`:
guard on raw lengths, conditional shift, guard on the aligned length,
Pearson computation with the zero-variance escape, strength and direction
classification. -/
def calculate_signal_correlation (leading_signal lagging_signal : List ℚ)
    (lag_days : ℤ) : CorrResult :=
  if leading_signal.length < 5 ∨ lagging_signal.length < 5 then
    .insufficient "Not enough data points"
  else
    let p := shift_align leading_signal lagging_signal lag_days
    if min p.1.length p.2.length < 5 then
      .insufficient "Not enough overlapping data"
    else
      let q := trunc_aligned leading_signal lagging_signal lag_days
      let num := pearson_num q.1 q.2
      let denomSq := pearson_denomSq q.1 q.2
      if denomSq = 0 then .noVariance lag_days
      else
        .ok num denomSq (corr_strength num denomSq)
          (if num > 0 then "positive" else "negative")
          lag_days (min p.1.length p.2.length)

/-- Replace the reported `lag_days` field of a correlation result, leaving
everything else unchanged (used to state that a too-large lag reproduces the
lag-0 computation while still echoing the requested lag). -/
def with_lag_days : CorrResult → ℤ → CorrResult
  | .noVariance _, l => .noVariance l
  | .ok num denomSq strength direction _ dataPoints, l =>
      .ok num denomSq strength direction l dataPoints
  | r, _ => r

/-! ## Best-lag selection
    (src/backend/services/funnel_impact.py, lines 866-877 and
    src/backend/services/multi_signal.py, lines 988-1000) -/

/-- Sort key of the best-lag `max` in `analyze_signal_predictiveness`:
`abs(x[1].get("correlation", 0)) if "error" not in x[1] else 0`.  A
candidate is a pair of a lag and either `some r` (a computed correlation)
or `none` (an error result, key 0). -/
def lag_key (c : Option ℚ) : ℚ :=
  match c with
  | none => 0
  | some r => |r|

/-- Python `max(items, key=...)` over a nonempty sequence: keep the current
best and replace it only on a strictly larger key, so the first maximal
element wins.  `analyze_signal_predictiveness` builds `lag_results` in
ascending lag order 0, 3, 7, 14, so the first element is the smallest
candidate lag. -/
def py_max_by_key (acc : ℤ × Option ℚ) : List (ℤ × Option ℚ) → ℤ × Option ℚ
  | [] => acc
  | x :: xs => py_max_by_key (if lag_key x.2 > lag_key acc.2 then x else acc) xs

/-- The best-lag step of `analyze_signal_predictiveness` for one signal:
`max` over the first candidate and the rest. -/
def best_predictive_lag (first : ℤ × Option ℚ) (rest : List (ℤ × Option ℚ)) :
    ℤ × Option ℚ :=
  py_max_by_key first rest

/-- The best-lag loop of `get_cross_channel_correlation`: starting from
`best_lag = 0, best_corr = 0`, replace only when the signed correlation is
strictly greater than the current best (insertion order is ascending lag
0, 3, 7, 14). -/
def cross_channel_best_lag (correlations : List (ℤ × ℚ)) : ℤ × ℚ :=
  correlations.foldl (fun best x => if x.2 > best.2 then x else best) (0, 0)

/-! ## Multi-signal scoring: `normalize_score`, `calculate_weighted_score`,
    confidence (src/backend/services/multi_signal.py, lines 141-154,
    257-299, 321-361, 503-517) -/

/-- `ROAS_TARGET = 2.0`. -/
def ROAS_TARGET : ℚ := 2

/-- `normalize_score(value, target, higher_is_better)`: 0.5 on a zero
target; otherwise the value/target quotient, mapped by
`min(1.0, ratio / 1.5)` when higher is better and by
`min(1.0, max(0, 2 - ratio))` when lower is better. -/
def normalize_score (value target : ℚ) (higher_is_better : Bool := true) : ℚ :=
  if target = 0 then 1/2
  else
    let q := value / target
    if higher_is_better then min 1 (q / (3/2))
    else min 1 (max 0 (2 - q))

/-- Sample variance of three values (`statistics.stdev` squared, n - 1 = 2
in the denominator).  The source compares `stdev(scores)` with `0.15` and
`0.30`; both sides nonnegative, so those tests are equivalent to comparing
this variance with `0.0225 = 9/400` and `0.09 = 9/100`. -/
def sample_variance3 (a b c : ℚ) : ℚ :=
  let m := (a + b + c) / 3
  ((a - m) ^ 2 + (b - m) ^ 2 + (c - m) ^ 2) / 2

/-- `calculate_weighted_score(platform_roas, kendall_lc_roas,
kendall_fc_roas, session_quality_score, trend_score)`: normalizes the three
ROAS inputs against `ROAS_TARGET`, blends the five components with the
`SIGNAL_WEIGHTS` 0.30 / 0.20 / 0.15 / 0.25 / 0.10, and classifies the
agreement of the three normalized ROAS scores by their standard deviation
(here: variance against squared thresholds). -/
def calculate_weighted_score (platform_roas kendall_lc_roas kendall_fc_roas
    session_quality_score trend_score : ℚ) : ℚ × String :=
  let platform_score := normalize_score platform_roas ROAS_TARGET
  let kendall_lc_score := normalize_score kendall_lc_roas ROAS_TARGET
  let kendall_fc_score := normalize_score kendall_fc_roas ROAS_TARGET
  let weighted :=
    kendall_lc_score * (30/100) +
    kendall_fc_score * (20/100) +
    platform_score * (15/100) +
    session_quality_score * (25/100) +
    trend_score * (10/100)
  let score_var := sample_variance3 platform_score kendall_lc_score kendall_fc_score
  let confidence :=
    if score_var < (9/400) then "high"
    else if score_var < (9/100) then "medium"
    else "low"
  (weighted, confidence)

/-- `calculate_confidence_from_volume(orders)` with the
`CONFIDENCE_THRESHOLDS` 20 / 10 / 3. -/
def calculate_confidence_from_volume (orders : ℤ) : String :=
  if orders ≥ 20 then "high"
  else if orders ≥ 10 then "medium"
  else if orders ≥ 3 then "low"
  else "very_low"

/-- The `confidence_order` dict of `get_multi_signal_campaign_view`:
`{"very_low": 0, "low": 1, "medium": 2, "high": 3}`, with `.get(x, 0)`
defaulting to 0. -/
def confidence_order (c : String) : ℕ :=
  if c = "very_low" then 0
  else if c = "low" then 1
  else if c = "medium" then 2
  else if c = "high" then 3
  else 0

/-- The final-confidence merge of `get_multi_signal_campaign_view`:
`min([volume_confidence, signal_confidence], key=confidence_order.get)`.
Python `min` keeps the first element on ties, so the volume confidence wins
unless the signal confidence ranks strictly lower. -/
def final_confidence (volume_confidence signal_confidence : String) : String :=
  if confidence_order signal_confidence < confidence_order volume_confidence
  then signal_confidence else volume_confidence

/-! ## Weight suggestions: `_calculate_weight_suggestions`
    (src/backend/services/funnel_impact.py, lines 907-1019) -/

/-- One entry of the `best_lags` dict: the correlation and strength at the
best predictive lag of a signal. -/
structure BestLag where
  correlation : ℚ
  strength : String
deriving DecidableEq

/-- `best_lags.get(key, {})` followed by `.get("correlation", 0)` /
`.get("strength", "unknown")`. -/
def lookup_best_lag (best_lags : List (String × BestLag)) (key : String) : BestLag :=
  match best_lags.find? (fun p => p.1 = key) with
  | some p => p.2
  | none => ⟨0, "unknown"⟩

/-- One suggestion dict of `_calculate_weight_suggestions`; the free-text
`reason` field is omitted, the optional `"flag": "investigate"` entry is an
`Option`. -/
structure Suggestion where
  current : ℚ
  suggested : ℚ
  confidence : String
  flag : Option String
deriving DecidableEq

/-- The branded-search branch of `_calculate_weight_suggestions`: current
weight 1.5; strong positive correlation suggests +0.5 capped at 2.5;
weak or negligible strength suggests -0.5 floored at 0.5; otherwise a
negative correlation is flagged `investigate` with no change; otherwise no
change.  This is the only signal with an investigate branch. -/
def branded_search_suggestion (branded_best : BestLag) : Suggestion :=
  if branded_best.strength = "strong" ∧ branded_best.correlation > 0 then
    ⟨3/2, min (5/2) (3/2 + 1/2), "high", none⟩
  else if branded_best.strength = "weak" ∨ branded_best.strength = "negligible" then
    ⟨3/2, max (1/2) (3/2 - 1/2), "medium", none⟩
  else if branded_best.correlation < 0 then
    ⟨3/2, 3/2, "low", some "investigate"⟩
  else
    ⟨3/2, 3/2, "medium", none⟩

/-- The amazon branch of `_calculate_weight_suggestions`: current weight
2.0; strong positive suggests +0.5 capped at 3.0; weak or negligible
suggests -0.5 floored at 1.0; every other case — including any negative
correlation that is not weak or negligible — falls through to no change
with no flag. -/
def amazon_suggestion (amazon_best : BestLag) : Suggestion :=
  if amazon_best.strength = "strong" ∧ amazon_best.correlation > 0 then
    ⟨2, min 3 (2 + 1/2), "high", none⟩
  else if amazon_best.strength = "weak" ∨ amazon_best.strength = "negligible" then
    ⟨2, max 1 (2 - 1/2), "medium", none⟩
  else
    ⟨2, 2, "medium", none⟩

/-- The new-customers branch of `_calculate_weight_suggestions`: current
weight 2.5; strong positive suggests +0.5 capped at 3.0; weak or
negligible suggests -0.5 floored at 1.5; otherwise no change with no
flag. -/
def new_customers_suggestion (nc_best : BestLag) : Suggestion :=
  if nc_best.strength = "strong" ∧ nc_best.correlation > 0 then
    ⟨5/2, min 3 (5/2 + 1/2), "high", none⟩
  else if nc_best.strength = "weak" ∨ nc_best.strength = "negligible" then
    ⟨5/2, max (3/2) (5/2 - 1/2), "medium", none⟩
  else
    ⟨5/2, 5/2, "medium", none⟩

/-- `_calculate_weight_suggestions(correlations, best_lags)` (the
`correlations` argument is never read by the source).  Current weights are
the fixed dict revenue 2.5, new_customers 2.5, amazon 2.0,
branded_search 1.5, mer 1.0.  Only three signals receive a suggestion:
branded_search, amazon and new_customers; meta_spend gets none. -/
def _calculate_weight_suggestions (best_lags : List (String × BestLag)) :
    List (String × Suggestion) :=
  [("branded_search",
      branded_search_suggestion (lookup_best_lag best_lags "branded_search_to_revenue")),
   ("amazon",
      amazon_suggestion (lookup_best_lag best_lags "amazon_to_shopify_revenue")),
   ("new_customers",
      new_customers_suggestion (lookup_best_lag best_lags "new_customers_to_revenue"))]

/-- Dict lookup on the suggestions list. -/
def suggestion_for (suggestions : List (String × Suggestion)) (key : String) :
    Option Suggestion :=
  (suggestions.find? (fun p => p.1 = key)).map (fun p => p.2)

/-! ## Recommendation ledger: `record_outcome` / `_calculate_outcome`
    (src/backend/services/recommendations.py, lines 150-224) -/

/-- The metric snapshot fields read by `_calculate_outcome`. -/
structure OutcomeMetrics where
  mer : ℚ
  ncac : ℚ
  cam_per_order : ℚ
deriving DecidableEq

/-- `_calculate_outcome(before, after, recommendation_type)`: three binary
signals on a 5 percent relative-change threshold (MER up good, NCAC down
good, CAM-per-order up good), majority vote.  The `recommendation_type`
argument is accepted and never read, as in the source. -/
def _calculate_outcome (before after : OutcomeMetrics)
    (recommendation_type : String) : String :=
  let _ := recommendation_type
  let mer_improved := after.mer > before.mer * (21/20)
  let mer_declined := after.mer < before.mer * (19/20)
  let ncac_improved := after.ncac < before.ncac * (19/20)
  let ncac_worsened := after.ncac > before.ncac * (21/20)
  let cam_improved := after.cam_per_order > before.cam_per_order * (21/20)
  let cam_declined := after.cam_per_order < before.cam_per_order * (19/20)
  let positive_signals : ℕ :=
    (if mer_improved then 1 else 0) + (if ncac_improved then 1 else 0) +
      (if cam_improved then 1 else 0)
  let negative_signals : ℕ :=
    (if mer_declined then 1 else 0) + (if ncac_worsened then 1 else 0) +
      (if cam_declined then 1 else 0)
  if positive_signals ≥ 2 ∧ negative_signals = 0 then "positive"
  else if negative_signals ≥ 2 ∧ positive_signals = 0 then "negative"
  else if positive_signals > negative_signals then "positive"
  else if negative_signals > positive_signals then "negative"
  else "neutral"

/-- A recommendation record, restricted to the fields `record_outcome`
reads or writes.  `metrics_at_recommendation` is `none` when the stored
dict is empty (Python truthiness of `{}`); `metrics_after` models the
dynamically named `metrics_after_{days}d` fields as a day-offset-keyed
association list. -/
structure Recommendation where
  id : String
  recommendation_type : String
  metrics_at_recommendation : Option OutcomeMetrics
  metrics_after : List (ℕ × OutcomeMetrics)
  outcome : String
deriving DecidableEq

/-- Python dict assignment `rec[field] = value` on the day-offset-keyed
snapshots: replace the entry when the key exists, append otherwise. -/
def dict_set : List (ℕ × OutcomeMetrics) → ℕ → OutcomeMetrics →
    List (ℕ × OutcomeMetrics)
  | [], d, m => [(d, m)]
  | p :: rest, d, m =>
      if p.1 = d then (d, m) :: rest else p :: dict_set rest d m

/-- The per-record body of `record_outcome`: store `metrics_after` under the
day offset, and when `days_after == 7` and a recommendation-time snapshot
exists, (re)compute the outcome from that snapshot and the new metrics. -/
def record_outcome_update (rec : Recommendation) (metrics_after : OutcomeMetrics)
    (days_after : ℕ) : Recommendation :=
  let base := { rec with metrics_after := dict_set rec.metrics_after days_after metrics_after }
  match rec.metrics_at_recommendation with
  | some before =>
      if days_after = 7 then
        { base with outcome := _calculate_outcome before metrics_after rec.recommendation_type }
      else base
  | none => base

/-- `record_outcome(recommendation_id, metrics_after, days_after)` as a
transformer of the stored recommendation list: the loop updates the first
record with a matching id and returns (records further down are not
visited). -/
def record_outcome (recommendations : List Recommendation)
    (recommendation_id : String) (metrics_after : OutcomeMetrics)
    (days_after : ℕ) : List Recommendation :=
  match recommendations with
  | [] => []
  | rec :: rest =>
      if rec.id = recommendation_id then
        record_outcome_update rec metrics_after days_after :: rest
      else
        rec :: record_outcome rest recommendation_id metrics_after days_after

/-! ## Concrete instances used by the claim theorems -/

/-- Baseline metrics realizing the worked example of the spec: every metric
at 100 in the baseline week. -/
def c1_baseline : FunnelMetrics := ⟨100, 100, 100, 100, 100, 100, 100, 100⟩

/-- After metrics realizing revenue +12 percent, new customers +15 percent,
amazon +8 percent, branded search flat, MER +1 percent. -/
def c1_after : FunnelMetrics := ⟨112, 100, 115, 108, 100, 100, 101, 100⟩

/-- A stored recommendation with a recommendation-time snapshot, before any
outcome has been recorded. -/
def c4_rec : Recommendation :=
  ⟨"r1", "scale", some ⟨10, 10, 10⟩, [], "pending"⟩

/-! ## Helper lemmas -/

theorem normalize_score_le_one (value target : ℚ) (higher_is_better : Bool) :
    normalize_score value target higher_is_better ≤ 1 := by
  unfold normalize_score
  split_ifs
  · norm_num
  · exact min_le_left _ _
  · exact min_le_left _ _

theorem normalize_score_nonneg_true (value target : ℚ) (hv : 0 ≤ value)
    (ht : 0 < target) : 0 ≤ normalize_score value target true := by
  simp only [normalize_score, if_neg ht.ne', if_true]
  refine le_min (by norm_num) ?_
  positivity

theorem normalize_score_nonneg_false (value target : ℚ) :
    0 ≤ normalize_score value target false := by
  simp only [normalize_score, Bool.false_eq_true, if_false]
  split_ifs
  · norm_num
  · exact le_min (by norm_num) (le_max_left _ _)

/-! ## C1 — impact-assessment worked example -/

/-- C1 counterexample: on deltas with revenue +12 percent, new customers
+15 percent, amazon +8 percent, branded search flat and MER +1 percent, the
MER delta is classified `flat` (|1| <= 2), so it contributes 0 and the
score is 2.5 + 2.5 + 2 = 7.0, not the 8.0 the claim states (8.0 would
require MER to count as `up`). -/
theorem c1_counterexample :
    (calculate_impact c1_baseline c1_after).revenue.pct = 12 ∧
    (calculate_impact c1_baseline c1_after).revenue.direction = "up" ∧
    (calculate_impact c1_baseline c1_after).new_customers.pct = 15 ∧
    (calculate_impact c1_baseline c1_after).new_customers.direction = "up" ∧
    (calculate_impact c1_baseline c1_after).amazon_sales.pct = 8 ∧
    (calculate_impact c1_baseline c1_after).amazon_sales.direction = "up" ∧
    (calculate_impact c1_baseline c1_after).branded_clicks.direction = "flat" ∧
    (calculate_impact c1_baseline c1_after).mer.pct = 1 ∧
    (calculate_impact c1_baseline c1_after).mer.direction = "flat" ∧
    (assess_funnel_impact (calculate_impact c1_baseline c1_after)).score ≠ 8 := by
  norm_num +decide [c1_baseline, c1_after, calculate_impact, calc_change,
    assess_funnel_impact, signal_score]

/-- C1 (amended): the worked example yields score 7.0 with verdict
`strong_positive`; in general the verdict is `strong_positive` exactly when
the signed weighted score reaches 4. -/
theorem c1_assess_worked_example :
    assess_funnel_impact (calculate_impact c1_baseline c1_after) =
      ⟨"strong_positive", 7⟩ ∧
    ∀ i : Impact,
      ((assess_funnel_impact i).verdict = "strong_positive" ↔
        4 ≤ (assess_funnel_impact i).score) := by
  constructor
  · norm_num +decide [c1_baseline, c1_after, calculate_impact, calc_change,
      assess_funnel_impact, signal_score]
  · intro i
    unfold assess_funnel_impact
    dsimp only
    split_ifs with h1 h2 h3 h4
    · exact iff_of_true rfl h1
    · exact iff_of_false (by decide) h1
    · exact iff_of_false (by decide) h1
    · exact iff_of_false (by decide) h1
    · exact iff_of_false (by decide) h1

/-! ## C2 — composite weighted score range -/

/-- C2 counterexample: `calculate_weighted_score` applies no lower clamp,
so a negative platform ROAS drives the composite below 0 (here to -5). -/
theorem c2_counterexample :
    (calculate_weighted_score (-100) 0 0 0 0).1 = -5 ∧
    (calculate_weighted_score (-100) 0 0 0 0).1 < 0 := by
  norm_num [calculate_weighted_score, normalize_score, ROAS_TARGET, sample_variance3]

/-- C2 (amended): for nonnegative ROAS inputs and session-quality and trend
scores inside [0,1], the composite weighted score lies in [0,1]. -/
theorem c2_weighted_score_in_unit_interval :
    ∀ platform_roas kendall_lc_roas kendall_fc_roas session_quality trend : ℚ,
      0 ≤ platform_roas → 0 ≤ kendall_lc_roas → 0 ≤ kendall_fc_roas →
      0 ≤ session_quality → session_quality ≤ 1 → 0 ≤ trend → trend ≤ 1 →
      0 ≤ (calculate_weighted_score platform_roas kendall_lc_roas kendall_fc_roas
            session_quality trend).1 ∧
      (calculate_weighted_score platform_roas kendall_lc_roas kendall_fc_roas
            session_quality trend).1 ≤ 1 := by
  intro p lc fc sq tr hp hlc hfc hsq0 hsq1 htr0 htr1
  have ht : (0:ℚ) < ROAS_TARGET := by norm_num [ROAS_TARGET]
  have hp0 := normalize_score_nonneg_true p ROAS_TARGET hp ht
  have hp1 := normalize_score_le_one p ROAS_TARGET true
  have hlc0 := normalize_score_nonneg_true lc ROAS_TARGET hlc ht
  have hlc1 := normalize_score_le_one lc ROAS_TARGET true
  have hfc0 := normalize_score_nonneg_true fc ROAS_TARGET hfc ht
  have hfc1 := normalize_score_le_one fc ROAS_TARGET true
  unfold calculate_weighted_score
  dsimp only
  constructor <;> linarith

/-- C2 witness. -/
theorem c2_witness :
    (0:ℚ) ≤ 3 ∧ (0:ℚ) ≤ 2 ∧ (0:ℚ) ≤ 1 ∧ (0:ℚ) ≤ 1/2 ∧ (1/2:ℚ) ≤ 1 ∧
    0 ≤ (calculate_weighted_score 3 2 1 (1/2) (1/2)).1 ∧
    (calculate_weighted_score 3 2 1 (1/2) (1/2)).1 ≤ 1 := by
  have h := c2_weighted_score_in_unit_interval 3 2 1 (1/2) (1/2)
    (by norm_num) (by norm_num) (by norm_num) (by norm_num) (by norm_num)
    (by norm_num) (by norm_num)
  exact ⟨by norm_num, by norm_num, by norm_num, by norm_num, by norm_num, h.1, h.2⟩

/-! ## C7 — normalization bounds, monotonicity and anchors -/

/-- C7 counterexample: with `higher_is_better=True` the result is only
capped above, so a negative value produces a score below 0. -/
theorem c7_counterexample :
    normalize_score (-3) 2 true = -1 ∧ normalize_score (-3) 2 true < 0 := by
  norm_num [normalize_score]

/-- C7 (amended): for a positive target, the score is capped at 1 always
and bounded in [0,1] whenever the value is nonnegative (for
lower-is-better, for every value); it is monotone nondecreasing in the
value when higher is better and nonincreasing when lower is better; and
the anchor points hold: 1.5x target maps to 1.0 when higher is better,
and 0 maps to 1.0 and 2x target to 0 when lower is better. -/
theorem c7_normalize_score_props :
    ∀ value value2 target : ℚ, 0 < target →
      (0 ≤ value →
        0 ≤ normalize_score value target true ∧ normalize_score value target true ≤ 1) ∧
      (0 ≤ normalize_score value target false ∧ normalize_score value target false ≤ 1) ∧
      (value ≤ value2 →
        normalize_score value target true ≤ normalize_score value2 target true) ∧
      (value ≤ value2 →
        normalize_score value2 target false ≤ normalize_score value target false) ∧
      normalize_score ((3/2) * target) target true = 1 ∧
      normalize_score 0 target false = 1 ∧
      normalize_score (2 * target) target false = 0 := by
  intro v w t ht
  refine ⟨fun hv => ⟨normalize_score_nonneg_true v t hv ht, normalize_score_le_one v t true⟩,
    ⟨normalize_score_nonneg_false v t, normalize_score_le_one v t false⟩,
    fun hvw => ?_, fun hvw => ?_, ?_, ?_, ?_⟩
  · simp only [normalize_score, if_neg ht.ne', if_true]
    have : v / t ≤ w / t := by gcongr
    exact min_le_min le_rfl (by linarith)
  · simp only [normalize_score, Bool.false_eq_true, if_false, if_neg ht.ne']
    have : v / t ≤ w / t := by gcongr
    exact min_le_min le_rfl (max_le_max le_rfl (by linarith))
  · simp only [normalize_score, if_neg ht.ne', if_true]
    rw [mul_div_assoc, div_self ht.ne', mul_one, div_self (by norm_num : (3/2:ℚ) ≠ 0)]
    exact min_self 1
  · simp only [normalize_score, Bool.false_eq_true, if_false, if_neg ht.ne']
    rw [zero_div, sub_zero]
    norm_num
  · simp only [normalize_score, Bool.false_eq_true, if_false, if_neg ht.ne']
    rw [mul_div_assoc, div_self ht.ne', mul_one]
    norm_num

/-- C7 witness. -/
theorem c7_witness :
    (0:ℚ) < 2 ∧ (0:ℚ) ≤ 1 ∧ (1:ℚ) ≤ 3 ∧
    0 ≤ normalize_score 1 2 true ∧ normalize_score 1 2 true ≤ 1 ∧
    normalize_score 1 2 true ≤ normalize_score 3 2 true ∧
    normalize_score ((3/2) * 2) 2 true = 1 ∧
    normalize_score 0 2 false = 1 ∧
    normalize_score (2 * 2) 2 false = 0 := by
  have h := c7_normalize_score_props 1 3 2 (by norm_num)
  exact ⟨by norm_num, by norm_num, by norm_num, (h.1 (by norm_num)).1,
    (h.1 (by norm_num)).2, h.2.2.1 (by norm_num), h.2.2.2.2.1, h.2.2.2.2.2.1,
    h.2.2.2.2.2.2⟩

/-! ## C4 — outcome recording -/

theorem dict_set_idem (l : List (ℕ × OutcomeMetrics)) (d : ℕ) (m : OutcomeMetrics) :
    dict_set (dict_set l d m) d m = dict_set l d m := by
  induction l with
  | nil => simp [dict_set]
  | cons p rest ih =>
      by_cases h : p.1 = d
      · simp [dict_set, h]
      · simp [dict_set, h, ih]

theorem record_outcome_update_id (r : Recommendation) (m : OutcomeMetrics) (d : ℕ) :
    (record_outcome_update r m d).id = r.id := by
  cases hr : r.metrics_at_recommendation with
  | none => simp [record_outcome_update, hr]
  | some b =>
      simp only [record_outcome_update, hr]
      split_ifs <;> rfl

theorem record_outcome_update_idem (r : Recommendation) (m : OutcomeMetrics) (d : ℕ) :
    record_outcome_update (record_outcome_update r m d) m d =
      record_outcome_update r m d := by
  cases hr : r.metrics_at_recommendation with
  | none => simp [record_outcome_update, hr, dict_set_idem]
  | some b =>
      by_cases hd : d = 7
      · simp [record_outcome_update, hr, hd, dict_set_idem]
      · simp [record_outcome_update, hr, hd, dict_set_idem]

/-- C4 counterexample: an outcome already computed at day offset 7 is not
immutable — a second `record_outcome` call at the same offset with
different metrics recomputes it (here flipping a stored `positive` to
`negative`). -/
theorem c4_counterexample :
    (record_outcome [c4_rec] "r1" ⟨20, 5, 20⟩ 7).map Recommendation.outcome =
      ["positive"] ∧
    (record_outcome (record_outcome [c4_rec] "r1" ⟨20, 5, 20⟩ 7) "r1" ⟨1, 100, 1⟩ 7).map
        Recommendation.outcome = ["negative"] := by
  norm_num +decide [c4_rec, record_outcome, record_outcome_update, dict_set,
    _calculate_outcome]

/-- C4 (amended): `record_outcome` recomputes the outcome from the supplied
after-metrics on every day-offset-7 call, so the stored outcome is only
guaranteed unchanged when the repeated call carries identical inputs: with
the same id, day offset and metrics the second call is the identity on the
stored ledger (idempotence). -/
theorem c4_record_outcome_idempotent :
    ∀ (recommendations : List Recommendation) (recommendation_id : String)
      (metrics_after : OutcomeMetrics) (days_after : ℕ),
      record_outcome (record_outcome recommendations recommendation_id
          metrics_after days_after) recommendation_id metrics_after days_after =
        record_outcome recommendations recommendation_id metrics_after days_after := by
  intro recs rid m d
  induction recs with
  | nil => rfl
  | cons r rest ih =>
      by_cases h : r.id = rid
      · simp [record_outcome, h, record_outcome_update_id,
          record_outcome_update_idem]
      · simp [record_outcome, h, ih]

/-! ## C5 — correlation guards -/

/-- C5 (amended): the InsufficientData guards of
`calculate_signal_correlation` fire (a) when either raw series has fewer
than 5 points and (b) when, after the shift step actually applies, fewer
than 5 aligned pairs remain; and a zero Pearson denominator yields the
r = 0 `no_variance` result instead of a fault.  (When `lag_days` is at
least the lagging length no shift is applied at all — see the C10
theorem — which is why the guard is stated through `shift_align`.) -/
theorem c5_correlation_guards :
    ∀ (leading_signal lagging_signal : List ℚ) (lag_days : ℤ),
      (leading_signal.length < 5 ∨ lagging_signal.length < 5 →
        calculate_signal_correlation leading_signal lagging_signal lag_days =
          .insufficient "Not enough data points") ∧
      (5 ≤ leading_signal.length → 5 ≤ lagging_signal.length →
        min (shift_align leading_signal lagging_signal lag_days).1.length
            (shift_align leading_signal lagging_signal lag_days).2.length < 5 →
        calculate_signal_correlation leading_signal lagging_signal lag_days =
          .insufficient "Not enough overlapping data") ∧
      (5 ≤ leading_signal.length → 5 ≤ lagging_signal.length →
        5 ≤ min (shift_align leading_signal lagging_signal lag_days).1.length
            (shift_align leading_signal lagging_signal lag_days).2.length →
        pearson_denomSq (trunc_aligned leading_signal lagging_signal lag_days).1
            (trunc_aligned leading_signal lagging_signal lag_days).2 = 0 →
        calculate_signal_correlation leading_signal lagging_signal lag_days =
          .noVariance lag_days) := by
  intro leading lagging lag
  refine ⟨fun h => ?_, fun h1 h2 h3 => ?_, fun h1 h2 h3 h4 => ?_⟩
  · simp only [calculate_signal_correlation]
    rw [if_pos h]
  · simp only [calculate_signal_correlation]
    rw [if_neg (by omega), if_pos h3]
  · simp only [calculate_signal_correlation]
    rw [if_neg (by omega), if_neg (by omega), if_pos h4]

/-- C5 counterexample: two identical 6-point series with `lag_days = 10`.
Shifting backward by 10 would leave 0 aligned pairs, so the claim demands
an InsufficientData result, but the source skips the shift entirely
(`lag_days < len` fails) and returns the full-series correlation r = 1. -/
theorem c5_counterexample :
    calculate_signal_correlation [1, 2, 3, 4, 5, 6] [1, 2, 3, 4, 5, 6] 10 =
      .ok 105 11025 "strong" "positive" 10 6 ∧
    calculate_signal_correlation [1, 2, 3, 4, 5, 6] [1, 2, 3, 4, 5, 6] 10 ≠
      .insufficient "Not enough data points" ∧
    calculate_signal_correlation [1, 2, 3, 4, 5, 6] [1, 2, 3, 4, 5, 6] 10 ≠
      .insufficient "Not enough overlapping data" := by
  norm_num +decide [calculate_signal_correlation, shift_align, trunc_aligned,
    pearson_num, pearson_denomSq, corr_strength]

/-- C5 witness. -/
theorem c5_witness :
    5 ≤ ([1, 2, 3, 4, 5, 6] : List ℚ).length ∧
    min (shift_align [1, 2, 3, 4, 5, 6] [1, 2, 3, 4, 5, 6] 3).1.length
        (shift_align [1, 2, 3, 4, 5, 6] [1, 2, 3, 4, 5, 6] 3).2.length < 5 ∧
    calculate_signal_correlation [1, 2, 3, 4, 5, 6] [1, 2, 3, 4, 5, 6] 3 =
      .insufficient "Not enough overlapping data" ∧
    pearson_denomSq (trunc_aligned [1, 1, 1, 1, 1] [1, 2, 3, 4, 5] 0).1
        (trunc_aligned [1, 1, 1, 1, 1] [1, 2, 3, 4, 5] 0).2 = 0 ∧
    calculate_signal_correlation [1, 1, 1, 1, 1] [1, 2, 3, 4, 5] 0 =
      .noVariance 0 := by
  refine ⟨by norm_num, by decide, ?_,
    by norm_num [trunc_aligned, shift_align, pearson_denomSq], ?_⟩
  · exact (c5_correlation_guards _ _ _).2.1 (by norm_num) (by norm_num)
      (by decide)
  · exact (c5_correlation_guards _ _ _).2.2 (by norm_num) (by norm_num)
      (by decide)
      (by norm_num [trunc_aligned, shift_align, pearson_denomSq])

/-! ## C10 — oversized lag reproduces the lag-0 computation -/

/-- C10: for series of length at least 5, a `lag_days` at least the length
of the lagging series applies no shift: the result equals the lag-0
computation on the unshifted, length-truncated series, with only the
reported `lag_days` field echoing the requested value. -/
theorem c10_large_lag_is_lag_zero :
    ∀ (leading_signal lagging_signal : List ℚ) (lag_days : ℤ),
      5 ≤ leading_signal.length → 5 ≤ lagging_signal.length →
      (lagging_signal.length : ℤ) ≤ lag_days →
      calculate_signal_correlation leading_signal lagging_signal lag_days =
        with_lag_days (calculate_signal_correlation leading_signal lagging_signal 0)
          lag_days := by
  intro leading lagging lag h1 h2 h3
  have hs : shift_align leading lagging lag = (leading, lagging) := by
    unfold shift_align
    rw [if_neg]
    rintro ⟨-, hlt⟩
    omega
  have hs0 : shift_align leading lagging 0 = (leading, lagging) := by
    unfold shift_align
    rw [if_neg]
    rintro ⟨h0, -⟩
    exact lt_irrefl 0 h0
  have ht : trunc_aligned leading lagging lag = trunc_aligned leading lagging 0 := by
    unfold trunc_aligned
    rw [hs, hs0]
  have hg : ¬(leading.length < 5 ∨ lagging.length < 5) := by omega
  simp only [calculate_signal_correlation, hs, hs0, ht, if_neg hg]
  have hm : ¬(min leading.length lagging.length < 5) := by omega
  rw [if_neg hm, if_neg hm]
  by_cases hd : pearson_denomSq (trunc_aligned leading lagging 0).1
      (trunc_aligned leading lagging 0).2 = 0
  · rw [if_pos hd, if_pos hd]
    rfl
  · rw [if_neg hd, if_neg hd]
    rfl

/-- C10 witness. -/
theorem c10_witness :
    5 ≤ ([1, 2, 3, 4, 5, 6] : List ℚ).length ∧
    (([(1:ℚ), 2, 3, 4, 5, 6].length : ℤ)) ≤ 10 ∧
    calculate_signal_correlation [1, 2, 3, 4, 5, 6] [1, 2, 3, 4, 5, 6] 10 =
      with_lag_days (calculate_signal_correlation [1, 2, 3, 4, 5, 6] [1, 2, 3, 4, 5, 6] 0)
        10 :=
  ⟨by norm_num, by norm_num,
    c10_large_lag_is_lag_zero _ _ _ (by norm_num) (by norm_num) (by norm_num)⟩

/-! ## C6 — multi-window tracking status -/

/-- C6: a window is `complete` exactly when days-since-change reaches the
window length, with after-period `[change_date, change_date + w - 1]` and
the baseline fixed to the 7 days before the change for every window;
otherwise it is `pending` with `days_remaining = w - days_since_change` and
`available_on = change_date + w`; and for a change made 10 days ago the 3d
and 7d windows are complete while 14d and 30d are pending with 4 and 20
days remaining. -/
theorem c6_change_impact_windows :
    ∀ (change_date now window_days : ℤ),
      (window_days ≤ now - change_date →
        window_info change_date now window_days =
          .complete (now - change_date) (change_date - 7) (change_date - 1)
            change_date (change_date + window_days - 1)) ∧
      (now - change_date < window_days →
        window_info change_date now window_days =
          .pending (now - change_date) (window_days - (now - change_date))
            (change_date + window_days)) ∧
      (get_change_impact_status_windows change_date (change_date + 10) =
        [(3, .complete 10 (change_date - 7) (change_date - 1) change_date (change_date + 2)),
         (7, .complete 10 (change_date - 7) (change_date - 1) change_date (change_date + 6)),
         (14, .pending 10 4 (change_date + 14)),
         (30, .pending 10 20 (change_date + 30))]) := by
  intro cd now w
  refine ⟨fun h => ?_, fun h => ?_, ?_⟩
  · simp only [window_info]
    rw [if_pos h]
  · simp only [window_info]
    rw [if_neg (by omega)]
  · have h10 : cd + 10 - cd = (10:ℤ) := by ring
    simp only [get_change_impact_status_windows, TRACKING_WINDOWS, List.map,
      window_info, h10]
    norm_num
    exact ⟨by ring, by ring⟩

/-- C6 witness. -/
theorem c6_witness :
    ((3:ℤ) ≤ 10 - 0) ∧ window_info 0 10 3 = .complete 10 (-7) (-1) 0 2 := by
  have h := (c6_change_impact_windows 0 10 3).1 (by norm_num)
  norm_num at h
  exact ⟨by norm_num, h⟩

/-! ## C8 — confidence derivation -/

/-- C8: volume confidence follows the fixed order thresholds 20 / 10 / 3;
signal confidence follows the score-agreement thresholds (stdev below 0.15
high, below 0.30 medium, else low, stated on the variance); the final
confidence is the minimum of the two on the order
very_low < low < medium < high; in particular fewer than 3 orders forces
`very_low` whatever the signal agreement, and 20+ orders with tightly
agreeing scores gives `high`. -/
theorem c8_confidence_rules :
    ∀ (orders : ℤ) (p lc fc sq tr : ℚ) (v s : String),
      (20 ≤ orders → calculate_confidence_from_volume orders = "high") ∧
      (10 ≤ orders → orders < 20 → calculate_confidence_from_volume orders = "medium") ∧
      (3 ≤ orders → orders < 10 → calculate_confidence_from_volume orders = "low") ∧
      (orders < 3 → calculate_confidence_from_volume orders = "very_low") ∧
      (sample_variance3 (normalize_score p ROAS_TARGET) (normalize_score lc ROAS_TARGET)
          (normalize_score fc ROAS_TARGET) < 9/400 →
        (calculate_weighted_score p lc fc sq tr).2 = "high") ∧
      (¬sample_variance3 (normalize_score p ROAS_TARGET) (normalize_score lc ROAS_TARGET)
          (normalize_score fc ROAS_TARGET) < 9/400 →
        sample_variance3 (normalize_score p ROAS_TARGET) (normalize_score lc ROAS_TARGET)
          (normalize_score fc ROAS_TARGET) < 9/100 →
        (calculate_weighted_score p lc fc sq tr).2 = "medium") ∧
      (¬sample_variance3 (normalize_score p ROAS_TARGET) (normalize_score lc ROAS_TARGET)
          (normalize_score fc ROAS_TARGET) < 9/400 →
        ¬sample_variance3 (normalize_score p ROAS_TARGET) (normalize_score lc ROAS_TARGET)
          (normalize_score fc ROAS_TARGET) < 9/100 →
        (calculate_weighted_score p lc fc sq tr).2 = "low") ∧
      (confidence_order (final_confidence v s) =
        min (confidence_order v) (confidence_order s)) ∧
      (final_confidence v s = v ∨ final_confidence v s = s) ∧
      (orders < 3 →
        final_confidence (calculate_confidence_from_volume orders)
          ((calculate_weighted_score p lc fc sq tr).2) = "very_low") ∧
      (20 ≤ orders →
        sample_variance3 (normalize_score p ROAS_TARGET) (normalize_score lc ROAS_TARGET)
          (normalize_score fc ROAS_TARGET) < 9/400 →
        final_confidence (calculate_confidence_from_volume orders)
          ((calculate_weighted_score p lc fc sq tr).2) = "high") := by
  intro o p lc fc sq tr v s
  have hvol_high : ∀ h : 20 ≤ o, calculate_confidence_from_volume o = "high" := by
    intro h
    simp only [calculate_confidence_from_volume]
    rw [if_pos h]
  have hvol_vlow : ∀ h : o < 3, calculate_confidence_from_volume o = "very_low" := by
    intro h
    simp only [calculate_confidence_from_volume]
    rw [if_neg (by omega), if_neg (by omega), if_neg (by omega)]
  have hsig : (calculate_weighted_score p lc fc sq tr).2 = "high" ∨
      (calculate_weighted_score p lc fc sq tr).2 = "medium" ∨
      (calculate_weighted_score p lc fc sq tr).2 = "low" := by
    simp only [calculate_weighted_score]
    split_ifs <;> simp
  have hsig_high : sample_variance3 (normalize_score p ROAS_TARGET)
      (normalize_score lc ROAS_TARGET) (normalize_score fc ROAS_TARGET) < 9/400 →
      (calculate_weighted_score p lc fc sq tr).2 = "high" := by
    intro h
    simp only [calculate_weighted_score]
    rw [if_pos h]
  refine ⟨hvol_high, fun h1 h2 => ?_, fun h1 h2 => ?_, hvol_vlow,
    hsig_high, fun h1 h2 => ?_, fun h1 h2 => ?_, ?_, ?_, fun h => ?_, fun h1 h2 => ?_⟩
  · simp only [calculate_confidence_from_volume]
    rw [if_neg (by omega), if_pos h1]
  · simp only [calculate_confidence_from_volume]
    rw [if_neg (by omega), if_neg (by omega), if_pos h1]
  · simp only [calculate_weighted_score]
    rw [if_neg h1, if_pos h2]
  · simp only [calculate_weighted_score]
    rw [if_neg h1, if_neg h2]
  · simp only [final_confidence]
    split_ifs with hvs
    · omega
    · omega
  · simp only [final_confidence]
    split_ifs
    · exact Or.inr rfl
    · exact Or.inl rfl
  · rcases hsig with hs1 | hs1 | hs1 <;>
      rw [hvol_vlow h, hs1] <;> decide
  · rw [hvol_high h1, hsig_high h2]
    decide

/-- C8 witness. -/
theorem c8_witness :
    ((20:ℤ) ≤ 25) ∧
    sample_variance3 (normalize_score 2 ROAS_TARGET) (normalize_score 2 ROAS_TARGET)
      (normalize_score 2 ROAS_TARGET) < 9/400 ∧
    calculate_confidence_from_volume 25 = "high" ∧
    final_confidence (calculate_confidence_from_volume 25)
      ((calculate_weighted_score 2 2 2 (1/2) (1/2)).2) = "high" ∧
    ((2:ℤ) < 3) ∧
    final_confidence (calculate_confidence_from_volume 2)
      ((calculate_weighted_score 2 2 2 (1/2) (1/2)).2) = "very_low" := by
  have hvar : sample_variance3 (normalize_score 2 ROAS_TARGET)
      (normalize_score 2 ROAS_TARGET) (normalize_score 2 ROAS_TARGET) < 9/400 := by
    norm_num [sample_variance3, normalize_score, ROAS_TARGET]
  have h := c8_confidence_rules 25 2 2 2 (1/2) (1/2) "high" "low"
  have h2 := c8_confidence_rules 2 2 2 2 (1/2) (1/2) "high" "low"
  exact ⟨by norm_num, hvar, h.1 (by norm_num),
    h.2.2.2.2.2.2.2.2.2.2 (by norm_num) hvar, by norm_num,
    h2.2.2.2.2.2.2.2.2.2.1 (by norm_num)⟩

/-! ## C9 — best-lag selection -/

theorem py_max_by_key_eq_or_mem (xs : List (ℤ × Option ℚ)) (acc : ℤ × Option ℚ) :
    py_max_by_key acc xs = acc ∨ py_max_by_key acc xs ∈ xs := by
  induction xs generalizing acc with
  | nil => exact Or.inl rfl
  | cons z zs ih =>
      rw [py_max_by_key]
      rcases ih (if lag_key z.2 > lag_key acc.2 then z else acc) with h | h
      · rw [h]
        split_ifs with hz
        · exact Or.inr (List.mem_cons_self _ _)
        · exact Or.inl rfl
      · exact Or.inr (List.mem_cons_of_mem _ h)

theorem lag_key_le_py_max_self (xs : List (ℤ × Option ℚ)) (acc : ℤ × Option ℚ) :
    lag_key acc.2 ≤ lag_key (py_max_by_key acc xs).2 := by
  induction xs generalizing acc with
  | nil => simp [py_max_by_key]
  | cons z zs ih =>
      rw [py_max_by_key]
      refine le_trans ?_ (ih _)
      split_ifs with hz
      · exact le_of_lt hz
      · exact le_rfl

theorem lag_key_le_py_max_of_mem (xs : List (ℤ × Option ℚ)) (acc y : ℤ × Option ℚ)
    (hy : y ∈ xs) : lag_key y.2 ≤ lag_key (py_max_by_key acc xs).2 := by
  induction xs generalizing acc with
  | nil => cases hy
  | cons z zs ih =>
      rw [py_max_by_key]
      rcases List.mem_cons.mp hy with rfl | hmem
      · refine le_trans ?_ (lag_key_le_py_max_self zs _)
        split_ifs with hz
        · exact le_rfl
        · exact le_of_not_lt hz
      · exact ih _ hmem

theorem py_max_by_key_of_le (xs : List (ℤ × Option ℚ)) (acc : ℤ × Option ℚ)
    (h : ∀ y ∈ xs, lag_key y.2 ≤ lag_key acc.2) : py_max_by_key acc xs = acc := by
  induction xs generalizing acc with
  | nil => rfl
  | cons z zs ih =>
      rw [py_max_by_key,
        if_neg (not_lt.mpr (h z (List.mem_cons_self _ _)))]
      exact ih acc fun y hy => h y (List.mem_cons_of_mem _ hy)

theorem cross_fold_keeps_acc (l : List (ℤ × ℚ)) (acc : ℤ × ℚ)
    (h : ∀ q ∈ l, q.2 ≤ acc.2) :
    l.foldl (fun best x => if x.2 > best.2 then x else best) acc = acc := by
  induction l generalizing acc with
  | nil => rfl
  | cons q qs ih =>
      simp only [List.foldl]
      rw [if_neg (not_lt.mpr (h q (List.mem_cons_self _ _)))]
      exact ih acc fun y hy => h y (List.mem_cons_of_mem _ hy)

/-- C9 (amended): the best-lag `max` of `analyze_signal_predictiveness`
always returns one of its candidates, maximizes the error-aware absolute
correlation key, and keeps the first (smallest, since insertion order is
ascending) candidate on ties; the best-lag loop of
`get_cross_channel_correlation`, by contrast, maximizes the signed
correlation starting from the sentinel `(lag 0, corr 0)`, so whenever every
candidate correlation is nonpositive it returns lag 0 with correlation 0
rather than a lag of maximal absolute correlation. -/
theorem c9_best_lag_selection :
    ∀ (first : ℤ × Option ℚ) (rest : List (ℤ × Option ℚ)) (correlations : List (ℤ × ℚ)),
      (best_predictive_lag first rest ∈ first :: rest) ∧
      (∀ y ∈ first :: rest, lag_key y.2 ≤ lag_key (best_predictive_lag first rest).2) ∧
      ((∀ y ∈ rest, lag_key y.2 ≤ lag_key first.2) → best_predictive_lag first rest = first) ∧
      ((∀ q ∈ correlations, q.2 ≤ 0) → cross_channel_best_lag correlations = (0, 0)) := by
  intro x xs data
  simp only [best_predictive_lag]
  refine ⟨?_, ?_, fun h => py_max_by_key_of_le xs x h, fun h => ?_⟩
  · rcases py_max_by_key_eq_or_mem xs x with h | h
    · rw [h]; exact List.mem_cons_self _ _
    · exact List.mem_cons_of_mem _ h
  · intro y hy
    rcases List.mem_cons.mp hy with rfl | hmem
    · exact lag_key_le_py_max_self xs y
    · exact lag_key_le_py_max_of_mem xs x y hmem
  · exact cross_fold_keeps_acc data (0, 0) (fun q hq => h q hq)

/-- C9 counterexample: with every candidate correlation negative, the
cross-channel loop returns the sentinel `(0, 0)` even though the candidate
at lag 3 has strictly larger absolute correlation than the lag-0 candidate,
so the selection does not maximize the absolute correlation. -/
theorem c9_counterexample :
    cross_channel_best_lag [(0, -1/10), (3, -9/10), (7, -1/2), (14, -1/5)] = (0, 0) ∧
    (((3:ℤ), (-9/10:ℚ)) ∈ [((0:ℤ), (-1/10:ℚ)), (3, -9/10), (7, -1/2), (14, -1/5)]) ∧
    |(-1/10 : ℚ)| < |(-9/10 : ℚ)| := by
  refine ⟨?_, by norm_num, ?_⟩
  · norm_num [cross_channel_best_lag, List.foldl]
  · rw [abs_of_nonpos (by norm_num : (-1/10:ℚ) ≤ 0),
      abs_of_nonpos (by norm_num : (-9/10:ℚ) ≤ 0)]
    norm_num

/-- C9 witness. -/
theorem c9_witness :
    (∀ y ∈ [((3:ℤ), (some (-1/2) : Option ℚ)), (7, none)],
        lag_key y.2 ≤ lag_key ((0:ℤ), (some (1/2) : Option ℚ)).2) ∧
    best_predictive_lag (0, some (1/2)) [(3, some (-1/2)), (7, none)] = (0, some (1/2)) ∧
    (∀ q ∈ [((0:ℤ), (-1/10:ℚ)), (3, -9/10)], q.2 ≤ 0) ∧
    cross_channel_best_lag [(0, -1/10), (3, -9/10)] = (0, 0) := by
  have hk : ∀ y ∈ [((3:ℤ), (some (-1/2) : Option ℚ)), (7, none)],
      lag_key y.2 ≤ lag_key ((0:ℤ), (some (1/2) : Option ℚ)).2 := by
    intro y hy
    fin_cases hy
    · show lag_key (some (-1/2)) ≤ lag_key (some (1/2))
      simp only [lag_key]
      rw [abs_of_nonpos (by norm_num : (-1/2:ℚ) ≤ 0),
        abs_of_nonneg (by norm_num : (0:ℚ) ≤ 1/2)]
      norm_num
    · show lag_key none ≤ lag_key (some (1/2))
      simp only [lag_key]
      rw [abs_of_nonneg (by norm_num : (0:ℚ) ≤ 1/2)]
      norm_num
  have hq : ∀ q ∈ [((0:ℤ), (-1/10:ℚ)), (3, -9/10)], q.2 ≤ 0 := by
    intro q hq
    fin_cases hq <;> norm_num
  have h := c9_best_lag_selection (0, some (1/2)) [(3, some (-1/2)), (7, none)]
    [(0, -1/10), (3, -9/10)]
  exact ⟨hk, h.2.2.1 hk, hq, h.2.2.2 hq⟩

/-! ## C3 — weight-suggestion rules -/

/-- C3 (amended): strong positive correlation suggests +0.5 capped and weak
or negligible correlation suggests -0.5 floored for all three suggested
signals, but the investigate flag for an otherwise-unclassified negative
correlation exists only in the branded-search branch: for amazon and
new_customers every remaining case (including negative moderate or strong
correlations) yields no change and no flag, and meta_spend receives no
suggestion at all. -/
theorem c3_weight_suggestion_rules :
    ∀ (b : BestLag) (best_lags : List (String × BestLag)),
      (b.strength = "strong" ∧ 0 < b.correlation →
        branded_search_suggestion b = ⟨3/2, 2, "high", none⟩) ∧
      (b.strength = "weak" ∨ b.strength = "negligible" →
        branded_search_suggestion b = ⟨3/2, 1, "medium", none⟩) ∧
      (¬(b.strength = "strong" ∧ 0 < b.correlation) →
        ¬(b.strength = "weak" ∨ b.strength = "negligible") →
        b.correlation < 0 →
        branded_search_suggestion b = ⟨3/2, 3/2, "low", some "investigate"⟩) ∧
      (¬(b.strength = "strong" ∧ 0 < b.correlation) →
        ¬(b.strength = "weak" ∨ b.strength = "negligible") →
        ¬b.correlation < 0 →
        branded_search_suggestion b = ⟨3/2, 3/2, "medium", none⟩) ∧
      (b.strength = "strong" ∧ 0 < b.correlation →
        amazon_suggestion b = ⟨2, 5/2, "high", none⟩) ∧
      (b.strength = "weak" ∨ b.strength = "negligible" →
        amazon_suggestion b = ⟨2, 3/2, "medium", none⟩) ∧
      (¬(b.strength = "strong" ∧ 0 < b.correlation) →
        ¬(b.strength = "weak" ∨ b.strength = "negligible") →
        amazon_suggestion b = ⟨2, 2, "medium", none⟩) ∧
      ((amazon_suggestion b).flag = none) ∧
      (b.strength = "strong" ∧ 0 < b.correlation →
        new_customers_suggestion b = ⟨5/2, 3, "high", none⟩) ∧
      (b.strength = "weak" ∨ b.strength = "negligible" →
        new_customers_suggestion b = ⟨5/2, 2, "medium", none⟩) ∧
      (¬(b.strength = "strong" ∧ 0 < b.correlation) →
        ¬(b.strength = "weak" ∨ b.strength = "negligible") →
        new_customers_suggestion b = ⟨5/2, 5/2, "medium", none⟩) ∧
      ((new_customers_suggestion b).flag = none) ∧
      suggestion_for (_calculate_weight_suggestions best_lags) "meta_spend" = none ∧
      suggestion_for (_calculate_weight_suggestions best_lags) "branded_search" =
        some (branded_search_suggestion
          (lookup_best_lag best_lags "branded_search_to_revenue")) ∧
      suggestion_for (_calculate_weight_suggestions best_lags) "amazon" =
        some (amazon_suggestion
          (lookup_best_lag best_lags "amazon_to_shopify_revenue")) ∧
      suggestion_for (_calculate_weight_suggestions best_lags) "new_customers" =
        some (new_customers_suggestion
          (lookup_best_lag best_lags "new_customers_to_revenue")) := by
  intro b bl
  have hsw : b.strength = "weak" ∨ b.strength = "negligible" →
      ¬(b.strength = "strong" ∧ 0 < b.correlation) := by
    rintro (h | h) ⟨hs, -⟩ <;> rw [h] at hs <;> exact absurd hs (by decide)
  refine ⟨fun h => ?_, fun h => ?_, fun h1 h2 h3 => ?_, fun h1 h2 h3 => ?_,
    fun h => ?_, fun h => ?_, fun h1 h2 => ?_, ?_,
    fun h => ?_, fun h => ?_, fun h1 h2 => ?_, ?_, ?_, ?_, ?_, ?_⟩
  · simp only [branded_search_suggestion, if_pos h]
    norm_num [min_def]
  · simp only [branded_search_suggestion, if_neg (hsw h), if_pos h]
    norm_num [max_def]
  · simp only [branded_search_suggestion, if_neg h1, if_neg h2, if_pos h3]
  · simp only [branded_search_suggestion, if_neg h1, if_neg h2, if_neg h3]
  · simp only [amazon_suggestion, if_pos h]
    norm_num [min_def]
  · simp only [amazon_suggestion, if_neg (hsw h), if_pos h]
    norm_num [max_def]
  · simp only [amazon_suggestion, if_neg h1, if_neg h2]
  · simp only [amazon_suggestion]
    split_ifs <;> rfl
  · simp only [new_customers_suggestion, if_pos h]
    norm_num [min_def]
  · simp only [new_customers_suggestion, if_neg (hsw h), if_pos h]
    norm_num [max_def]
  · simp only [new_customers_suggestion, if_neg h1, if_neg h2]
  · simp only [new_customers_suggestion]
    split_ifs <;> rfl
  · rfl
  · rfl
  · rfl
  · rfl

/-- C3 counterexample: a clearly negative (moderate, r = -0.5) amazon
correlation produces a plain no-change suggestion with no `investigate`
flag, contradicting the claim that every analyzed signal pair with a
negative correlation is flagged. -/
theorem c3_counterexample :
    suggestion_for (_calculate_weight_suggestions
        [("amazon_to_shopify_revenue", ⟨-1/2, "moderate"⟩)]) "amazon" =
      some ⟨2, 2, "medium", none⟩ ∧
    (suggestion_for (_calculate_weight_suggestions
        [("amazon_to_shopify_revenue", ⟨-1/2, "moderate"⟩)]) "amazon").map
        Suggestion.flag = some none ∧
    ((-1/2 : ℚ) < 0) := by
  refine ⟨?_, ?_, by norm_num⟩ <;>
    norm_num +decide [suggestion_for, _calculate_weight_suggestions,
      lookup_best_lag, amazon_suggestion, branded_search_suggestion,
      new_customers_suggestion, List.find?]

/-- C3 witness. -/
theorem c3_witness :
    ((⟨4/5, "strong"⟩ : BestLag).strength = "strong" ∧
      (0:ℚ) < (⟨4/5, "strong"⟩ : BestLag).correlation) ∧
    branded_search_suggestion ⟨4/5, "strong"⟩ = ⟨3/2, 2, "high", none⟩ := by
  have h : (⟨4/5, "strong"⟩ : BestLag).strength = "strong" ∧
      (0:ℚ) < (⟨4/5, "strong"⟩ : BestLag).correlation := ⟨rfl, by norm_num⟩
  exact ⟨h, (c3_weight_suggestion_rules ⟨4/5, "strong"⟩ []).1 h⟩
